import Mathlib

/-!
Verification of the Writesleuth frontend against its specification.

The definitions below are a shallow embedding of the TypeScript sources:
JavaScript numbers are modelled as rationals, `Math.round` as
floor-of-plus-half, and the React state/stores as explicit record types with
the update functions the code defines.
-/

namespace Writesleuth

/-- JavaScript `Math.round`: rounds to the nearest integer, halves toward
positive infinity, i.e. `⌊q + 1/2⌋`. -/
def jsRound (q : ℚ) : ℤ := ⌊q + 1 / 2⌋

/-- A width/height pair (display layout or native image size), as used by
`imageLayout` and `imageSize` in the crop screen. -/
structure Size where
  width : ℚ
  height : ℚ
deriving DecidableEq

/-- A rectangle in display coordinates (`CropRect` of `overlayStore.ts`). -/
structure RectQ where
  x : ℚ
  y : ℚ
  width : ℚ
  height : ℚ
deriving DecidableEq

/-- A rectangle with integer pixel coordinates, as sent to `cropRegion`. -/
structure RectZ where
  x : ℤ
  y : ℤ
  width : ℤ
  height : ℤ
deriving DecidableEq

/-- The display-to-source mapping computed by `handleConfirmCrop` in the crop
screen: `scaleX = imageSize.width / imageLayout.width`,
`scaleY = imageSize.height / imageLayout.height`, and each crop coordinate is
`Math.round`ed after multiplying by the per-axis scale factor. -/
def handleConfirmCropRect (r : RectQ) (display source : Size) : RectZ :=
  let scaleX := source.width / display.width
  let scaleY := source.height / display.height
  { x := jsRound (r.x * scaleX)
    y := jsRound (r.y * scaleY)
    width := jsRound (r.width * scaleX)
    height := jsRound (r.height * scaleY) }

/-- Spec-side restatement of the geometry transform (spec section 4.1): the
equivalent rectangle in source pixel coordinates using independent X/Y scale
factors `sourceSize.width/displaySize.width` and
`sourceSize.height/displaySize.height`, each coordinate rounded to the
nearest integer. -/
def mapDisplayToSourceSpec (r : RectQ) (display source : Size) : RectZ :=
  { x := round (r.x * source.width / display.width)
    y := round (r.y * source.height / display.height)
    width := round (r.width * source.width / display.width)
    height := round (r.height * source.height / display.height) }

/-- C1: for display layout dimensions `dw > 0`, `dh > 0`, the confirmed crop
rect is mapped to source pixels by independent per-axis scale factors
`sw/dw` and `sh/dh` with each coordinate rounded to the nearest integer; in
particular rect (50, 50, 150, 100) on a 500 by 500 display over a
1000 by 1000 source maps to (100, 100, 300, 200). -/
theorem handleConfirmCrop_maps_display_to_source :
    (∀ (r : RectQ) (display source : Size),
      0 < display.width → 0 < display.height →
      handleConfirmCropRect r display source = mapDisplayToSourceSpec r display source) ∧
    handleConfirmCropRect ⟨50, 50, 150, 100⟩ ⟨500, 500⟩ ⟨1000, 1000⟩ =
      ⟨100, 100, 300, 200⟩ := by
  constructor
  · intro r display source _ _
    simp [handleConfirmCropRect, mapDisplayToSourceSpec, jsRound, round_eq,
      mul_div_assoc]
  · simp only [handleConfirmCropRect, jsRound, RectZ.mk.injEq]
    norm_num [Int.floor_eq_iff]

/-- Witness for C1: the general mapping theorem applied at the concrete
scenario input. -/
theorem handleConfirmCrop_maps_display_to_source_witness :
    handleConfirmCropRect ⟨50, 50, 150, 100⟩ ⟨500, 500⟩ ⟨1000, 1000⟩ =
      mapDisplayToSourceSpec ⟨50, 50, 150, 100⟩ ⟨500, 500⟩ ⟨1000, 1000⟩ :=
  handleConfirmCrop_maps_display_to_source.1 _ _ _ (by norm_num) (by norm_num)

/-! ### Crop screen gestures (the crop-selection screen's `panResponder` and
`handleResize`) -/

/-- Minimum crop-box edge length enforced by `handleResize` (`MIN_SIZE`). -/
def MIN_SIZE : ℚ := 40

/-- The four resize handles of the crop box. -/
inductive Corner
  | tl
  | tr
  | bl
  | br

/-- The raw rect computed by the `switch (corner)` block of `handleResize`,
before the minimum-size guard and the bounds clamp. -/
def resizeRaw (corner : Corner) (startRect : RectQ) (dx dy : ℚ) : RectQ :=
  match corner with
  | .tl => ⟨startRect.x + dx, startRect.y + dy, startRect.width - dx, startRect.height - dy⟩
  | .tr => ⟨startRect.x, startRect.y + dy, startRect.width + dx, startRect.height - dy⟩
  | .bl => ⟨startRect.x + dx, startRect.y, startRect.width - dx, startRect.height + dy⟩
  | .br => ⟨startRect.x, startRect.y, startRect.width + dx, startRect.height + dy⟩

/-- `handleResize` of the crop screen: computes the corner-adjusted rect; if
either edge would drop below `MIN_SIZE` the update is ignored, otherwise
`x`/`y` are clamped to be nonnegative and `width`/`height` are clamped so the
rect stays inside `layout`. The `layout` parameter is the `imageLayout`
value held by the handler's closure — which, because the corner responders
are created inside `useRef(...)` on the first render, is permanently the
first-render value, not the current layout (see `capturedImageLayout`). -/
def handleResize (layout : Size) (corner : Corner) (startRect : RectQ) (dx dy : ℚ) : RectQ :=
  let r := resizeRaw corner startRect dx dy
  if MIN_SIZE ≤ r.width ∧ MIN_SIZE ≤ r.height then
    { x := max 0 r.x
      y := max 0 r.y
      width := min r.width (layout.width - max 0 r.x)
      height := min r.height (layout.height - max 0 r.y) }
  else startRect

/-- `onPanResponderMove` of the crop box: translates the rect by the gesture
delta and constrains the origin against `layout`. As with `handleResize`,
the `layout` the frozen closure holds is the first-render `imageLayout`. -/
def panResponderMove (layout : Size) (startRect : RectQ) (dx dy : ℚ) : RectQ :=
  { startRect with
    x := max 0 (min (startRect.x + dx) (layout.width - startRect.width))
    y := max 0 (min (startRect.y + dy) (layout.height - startRect.height)) }

/-- The crop-rect invariant of the spec: nonnegative origin, positive size,
and the rect lies within the display layout bounds. -/
def RectInBounds (layout : Size) (r : RectQ) : Prop :=
  0 ≤ r.x ∧ 0 ≤ r.y ∧ 0 < r.width ∧ 0 < r.height ∧
  r.x + r.width ≤ layout.width ∧ r.y + r.height ≤ layout.height

instance (layout : Size) (r : RectQ) : Decidable (RectInBounds layout r) := by
  unfold RectInBounds; infer_instance

/-- The clamp step shared by all corners of `handleResize` keeps the rect in
bounds, provided the pre-clamp size is positive and the pre-clamp origin lies
strictly left of / above the layout edges. -/
theorem clampStep_inBounds (layout : Size) (rx ry rw rh : ℚ)
    (hW : 0 < layout.width) (hH : 0 < layout.height)
    (h0w : 0 < rw) (h0h : 0 < rh)
    (hxW : rx < layout.width) (hyH : ry < layout.height) :
    RectInBounds layout
      ⟨max 0 rx, max 0 ry, min rw (layout.width - max 0 rx),
        min rh (layout.height - max 0 ry)⟩ := by
  have hx : max 0 rx < layout.width := max_lt hW hxW
  have hy : max 0 ry < layout.height := max_lt hH hyH
  refine ⟨le_max_left _ _, le_max_left _ _, lt_min h0w (by linarith),
    lt_min h0h (by linarith), ?_, ?_⟩
  · have := min_le_right rw (layout.width - max 0 rx)
    linarith
  · have := min_le_right rh (layout.height - max 0 ry)
    linarith

/-- The clamp logic of `panResponderMove` and `handleResize`, taken by
itself, preserves the crop-rect invariant relative to whatever layout value
the handler holds, whenever that value is positive, and ignores resizes
whose raw size falls below the 40-pixel minimum. (In the running program the
handlers hold the frozen first-render layout, which is not positive — see
the next theorem.) -/
theorem cropGestures_preserve_bounds :
    ∀ (layout : Size) (r : RectQ) (corner : Corner) (dx dy : ℚ),
      0 < layout.width → 0 < layout.height → RectInBounds layout r →
      RectInBounds layout (panResponderMove layout r dx dy) ∧
      RectInBounds layout (handleResize layout corner r dx dy) ∧
      (((resizeRaw corner r dx dy).width < MIN_SIZE ∨
          (resizeRaw corner r dx dy).height < MIN_SIZE) →
        handleResize layout corner r dx dy = r) := by
  intro layout r corner dx dy hW hH hr
  obtain ⟨hx, hy, hw, hh, hxw, hyh⟩ := hr
  refine ⟨?_, ?_, ?_⟩
  · have h1 : max 0 (min (r.x + dx) (layout.width - r.width)) ≤
        layout.width - r.width :=
      max_le (by linarith) (min_le_right _ _)
    have h2 : max 0 (min (r.y + dy) (layout.height - r.height)) ≤
        layout.height - r.height :=
      max_le (by linarith) (min_le_right _ _)
    exact ⟨le_max_left _ _, le_max_left _ _, hw, hh, by simp only [panResponderMove]; linarith,
      by simp only [panResponderMove]; linarith⟩
  · simp only [handleResize]
    split_ifs with hg
    · obtain ⟨hgw, hgh⟩ := hg
      cases corner <;>
        · simp only [resizeRaw, MIN_SIZE] at hgw hgh ⊢
          exact clampStep_inBounds layout _ _ _ _ hW hH (by linarith) (by linarith)
            (by linarith) (by linarith)
    · exact ⟨hx, hy, hw, hh, hxw, hyh⟩
  · intro hsmall
    have hneg : ¬(MIN_SIZE ≤ (resizeRaw corner r dx dy).width ∧
        MIN_SIZE ≤ (resizeRaw corner r dx dy).height) := by
      rcases hsmall with h | h <;> rintro ⟨h1, h2⟩ <;> linarith
    simp only [handleResize, hneg, if_false]

/-- The `imageLayout` value captured by the crop screen's pan responders:
the responders are created inside `useRef(...)` on the first render, whose
`useState` initial value is `{width: 0, height: 0}`, and `useRef` never
re-creates them when the state later updates. -/
def capturedImageLayout : Size := ⟨0, 0⟩

/-- The start rect the frozen `onPanResponderGrant` closures read: the
first-render `cropRect`, i.e. the store's initial
`{x: 50, y: 50, width: 150, height: 100}`. -/
def capturedStartRect : RectQ := ⟨50, 50, 150, 100⟩

/-- C5: evaluation at the failing input. A bottom-right corner drag of
(+1, +1) runs `handleResize` against the frozen first-render layout and
start rect: the raw size 151 by 101 passes the 40-pixel minimum guard, yet
the stored rect comes out as (50, 50, -50, -50) — negative width and
height, violating the claimed `width > 0`, `height > 0` invariant and the
claimed in-bounds clamping. -/
theorem cropResize_stale_layout :
    MIN_SIZE ≤ (resizeRaw .br capturedStartRect 1 1).width ∧
    MIN_SIZE ≤ (resizeRaw .br capturedStartRect 1 1).height ∧
    handleResize capturedImageLayout .br capturedStartRect 1 1 =
      ⟨50, 50, -50, -50⟩ ∧
    (handleResize capturedImageLayout .br capturedStartRect 1 1).width < 0 ∧
    (handleResize capturedImageLayout .br capturedStartRect 1 1).height < 0 := by
  have hraw : resizeRaw .br capturedStartRect 1 1 = ⟨50, 50, 151, 101⟩ := by
    norm_num [resizeRaw, capturedStartRect]
  have h : handleResize capturedImageLayout .br capturedStartRect 1 1 =
      ⟨50, 50, -50, -50⟩ := by
    rw [handleResize, hraw]
    norm_num [capturedImageLayout, MIN_SIZE, max_def, min_def]
  refine ⟨?_, ?_, h, ?_, ?_⟩
  · rw [hraw]; norm_num [MIN_SIZE]
  · rw [hraw]; norm_num [MIN_SIZE]
  · rw [h]; norm_num
  · rw [h]; norm_num

/-! ### Overlay adjustment screen -/

/-- The state read by the overlay adjustment screen: images and crop size
from the overlay store, plus the overlay transform values the screen
manipulates (`overlayX`, `overlayY`, `overlayScale`, `overlayRotation`,
`overlayAlpha`) and the local-comparison results. -/
structure OverlayScreenState where
  baseImage : Option String
  croppedImage : Option String
  croppedWidth : ℚ
  croppedHeight : ℚ
  overlayX : ℚ
  overlayY : ℚ
  overlayScale : ℚ
  overlayRotation : ℚ
  overlayAlpha : ℚ
  localSSIM : ℚ
  edgeOverlap : ℚ
  differenceHeatmap : Option String
  edgeVisualization : Option String
  isComparing : Bool
deriving DecidableEq

/-- The request body type of `localComparison` (`LocalComparisonRequest` in
`services/api.ts`): base and overlay images, integer position and integer
region size. It has no rotation and no alpha field. -/
structure LocalComparisonRequest where
  base_image : String
  overlay_image : String
  overlay_x : ℤ
  overlay_y : ℤ
  overlay_width : ℤ
  overlay_height : ℤ
deriving DecidableEq

/-- The request built by `runLocalComparison` in the overlay screen: `none`
when either image is missing (early return), otherwise position
`(round(overlayX), round(overlayY))` and size
`(round(croppedWidth*overlayScale), round(croppedHeight*overlayScale))`. -/
def runLocalComparisonRequest (s : OverlayScreenState) : Option LocalComparisonRequest :=
  match s.baseImage, s.croppedImage with
  | some b, some c =>
      some
        { base_image := b
          overlay_image := c
          overlay_x := jsRound s.overlayX
          overlay_y := jsRound s.overlayY
          overlay_width := jsRound (s.croppedWidth * s.overlayScale)
          overlay_height := jsRound (s.croppedHeight * s.overlayScale) }
  | _, _ => none

/-- A concrete overlay screen state used in counterexamples. -/
def sampleOverlayState : OverlayScreenState :=
  { baseImage := some "base"
    croppedImage := some "crop"
    croppedWidth := 200
    croppedHeight := 150
    overlayX := 50
    overlayY := 50
    overlayScale := 1
    overlayRotation := 0
    overlayAlpha := 7 / 10
    localSSIM := 0
    edgeOverlap := 0
    differenceHeatmap := none
    edgeVisualization := none
    isComparing := false }

/-- Counterexample to C2: two overlay states that differ only in
`overlayRotation` (0 versus 90 degrees) produce identical `localComparison`
requests, so the request does not convey the rotation and the overlay region
is not resampled rotated. -/
theorem localComparisonRequest_ignores_rotation_cex :
    runLocalComparisonRequest { sampleOverlayState with overlayRotation := 90 } =
      runLocalComparisonRequest sampleOverlayState ∧
    ({ sampleOverlayState with overlayRotation := 90 } : OverlayScreenState).overlayRotation ≠
      sampleOverlayState.overlayRotation := by
  constructor
  · rfl
  · norm_num [sampleOverlayState]

/-- C2 (amended): every local comparison call conveys a region of size
`round(croppedWidth*scale)` by `round(croppedHeight*scale)` placed at
`(round(overlayX), round(overlayY))`, but the request contains no rotation
field: the transform rotation is not sent and does not influence the
request. -/
theorem localComparisonRequest_spec :
    ∀ (s : OverlayScreenState) (b c : String),
      s.baseImage = some b → s.croppedImage = some c →
      runLocalComparisonRequest s =
        some
          { base_image := b
            overlay_image := c
            overlay_x := jsRound s.overlayX
            overlay_y := jsRound s.overlayY
            overlay_width := jsRound (s.croppedWidth * s.overlayScale)
            overlay_height := jsRound (s.croppedHeight * s.overlayScale) } ∧
      (∀ ρ : ℚ, runLocalComparisonRequest { s with overlayRotation := ρ } =
        runLocalComparisonRequest s) := by
  intro s b c hb hc
  constructor
  · simp [runLocalComparisonRequest, hb, hc]
  · intro ρ
    simp [runLocalComparisonRequest]

/-- Witness for the amended C2 at a concrete state. -/
theorem localComparisonRequest_spec_witness :
    runLocalComparisonRequest sampleOverlayState =
      some
        { base_image := "base"
          overlay_image := "crop"
          overlay_x := jsRound sampleOverlayState.overlayX
          overlay_y := jsRound sampleOverlayState.overlayY
          overlay_width := jsRound (sampleOverlayState.croppedWidth * sampleOverlayState.overlayScale)
          overlay_height := jsRound (sampleOverlayState.croppedHeight * sampleOverlayState.overlayScale) } ∧
    (∀ ρ : ℚ, runLocalComparisonRequest { sampleOverlayState with overlayRotation := ρ } =
      runLocalComparisonRequest sampleOverlayState) :=
  localComparisonRequest_spec sampleOverlayState "base" "crop" rfl rfl

/-- The debounce interval of the overlay screen's re-scoring effect, in
milliseconds (`setTimeout(..., 500)`). -/
def rescoreDebounceMs : ℕ := 500

/-- The dependency array of the overlay screen's re-scoring `useEffect`:
`[overlayX, overlayY, overlayScale]`. -/
def rescoreEffectDeps (s : OverlayScreenState) : ℚ × ℚ × ℚ :=
  (s.overlayX, s.overlayY, s.overlayScale)

/-- React re-runs the effect (scheduling a debounced `runLocalComparison`)
exactly when the dependency array changed between renders. -/
def rescoreScheduled (s t : OverlayScreenState) : Prop :=
  rescoreEffectDeps s ≠ rescoreEffectDeps t

instance (s t : OverlayScreenState) : Decidable (rescoreScheduled s t) := by
  unfold rescoreScheduled; infer_instance

/-- Counterexample to C3: a rotation-only change of the overlay transform
does not schedule a local-comparison re-score, because the effect depends
only on `overlayX`, `overlayY` and `overlayScale`. -/
theorem rotation_change_does_not_reschedule_cex :
    ({ sampleOverlayState with overlayRotation := 15 } : OverlayScreenState).overlayRotation ≠
      sampleOverlayState.overlayRotation ∧
    ¬ rescoreScheduled { sampleOverlayState with overlayRotation := 15 } sampleOverlayState := by
  constructor
  · norm_num [sampleOverlayState]
  · intro h
    exact h rfl

/-- C3 (amended): a fresh debounced re-score is scheduled exactly when the
overlay position or scale changed; rotation-only and alpha-only changes do
not re-run the effect, and the debounce interval is 500 ms. -/
theorem rescoreScheduled_iff :
    rescoreDebounceMs = 500 ∧
    ∀ s t : OverlayScreenState,
      rescoreScheduled s t ↔
        (s.overlayX ≠ t.overlayX ∨ s.overlayY ≠ t.overlayY ∨ s.overlayScale ≠ t.overlayScale) := by
  refine ⟨rfl, ?_⟩
  intro s t
  unfold rescoreScheduled rescoreEffectDeps
  constructor
  · intro h
    by_contra hc
    push_neg at hc
    exact h (by rw [hc.1, hc.2.1, hc.2.2])
  · intro h he
    rw [Prod.mk.injEq, Prod.mk.injEq] at he
    rcases h with h | h | h
    · exact h he.1
    · exact h he.2.1
    · exact h he.2.2

/-! ### Overlay transform controls versus the overlay store -/

/-- Clamp `v` into `[lo, hi]`, as `Math.max(lo, Math.min(hi, v))`. -/
def clampQ (lo hi v : ℚ) : ℚ := max lo (min hi v)

/-- The overlay transform state the overlay store actually defines:
`overlayX`, `overlayY`, `overlayScale`, `overlayAlpha`. The store has no
rotation member and no rotation setter. -/
structure StoreTransform where
  x : ℚ
  y : ℚ
  scale : ℚ
  alpha : ℚ
deriving DecidableEq

/-- The overlay screen's transform-mutating controls: single-touch drag,
the multi-touch pinch step (its `initialDistance > 0` branch), the quick
rotate buttons (`rotateBy`), the 0° button, the three sliders (whose
emitted values are confined to their configured ranges), and
`handleReset`. -/
inductive OverlayControl
  | drag (dx dy : ℚ)
  | pinch (scaleChange angleChange dx dy : ℚ)
  | rotateButton (degrees : ℚ)
  | rotateZero
  | rotationSlider (v : ℚ)
  | scaleSlider (v : ℚ)
  | alphaSlider (v : ℚ)
  | reset

/-- One overlay control applied to the store state the code defines. The
returned flag is `true` when the handler aborts with a TypeError because it
calls `setOverlayRotation`, which the store does not define. Store writes
made before that call persist (zustand applies each `set` immediately);
writes after it never run. So: drag updates the position; the pinch branch
writes the clamped scale, then throws before its position update;
`rotateBy`, the 0° button and the rotation slider throw without any write;
the scale and alpha sliders write their range-confined value; `handleReset`
writes position (50, 50) and scale 1, then throws on `setOverlayRotation(0)`
before its alpha write. -/
def applyOverlayControl (s : StoreTransform) :
    OverlayControl → StoreTransform × Bool
  | .drag dx dy => ({ s with x := s.x + dx, y := s.y + dy }, false)
  | .pinch sc _ _ _ => ({ s with scale := clampQ (1 / 4) 3 (s.scale * sc) }, true)
  | .rotateButton _ => (s, true)
  | .rotateZero => (s, true)
  | .rotationSlider _ => (s, true)
  | .scaleSlider v => ({ s with scale := clampQ (1 / 4) 3 v }, false)
  | .alphaSlider v => ({ s with alpha := clampQ (1 / 10) 1 v }, false)
  | .reset => ({ s with x := 50, y := 50, scale := 1 }, true)

/-- The store's initial transform values. -/
def initialStoreTransform : StoreTransform := ⟨50, 50, 1, 7 / 10⟩

/-- The store transform reached by a sequence of overlay controls from the
initial store values. -/
def runOverlayControls (l : List OverlayControl) : StoreTransform :=
  l.foldl (fun s a => (applyOverlayControl s a).1) initialStoreTransform

/-- Bounds for the clamp used by the pinch handler and sliders. -/
theorem clampQ_mem (lo hi v : ℚ) (h : lo ≤ hi) :
    lo ≤ clampQ lo hi v ∧ clampQ lo hi v ≤ hi :=
  ⟨le_max_left _ _, max_le h (min_le_left _ _)⟩

/-- C4: evaluation of the overlay controls against the store the code
defines. Scale stays in [0.25, 3] and alpha in [0.1, 1] in every reachable
store state; but the store holds no rotation member at all, and every
rotation-driving control — the quick-rotate buttons, the 0° button, the
rotation slider, the rotation part of a pinch, and `handleReset` — throws a
TypeError on the undefined `setOverlayRotation` (the `true` flag) instead
of clamping anything, with `handleReset` moreover losing its alpha write. -/
theorem overlayRotation_controls_throw :
    (∀ (s : StoreTransform) (d : ℚ),
      applyOverlayControl s (.rotateButton d) = (s, true) ∧
      applyOverlayControl s (.rotationSlider d) = (s, true) ∧
      applyOverlayControl s .rotateZero = (s, true) ∧
      (applyOverlayControl s (.pinch d d d d)).2 = true ∧
      (applyOverlayControl s .reset).2 = true ∧
      (applyOverlayControl s .reset).1.alpha = s.alpha) ∧
    (∀ l : List OverlayControl,
      1 / 4 ≤ (runOverlayControls l).scale ∧ (runOverlayControls l).scale ≤ 3 ∧
      1 / 10 ≤ (runOverlayControls l).alpha ∧ (runOverlayControls l).alpha ≤ 1) := by
  refine ⟨fun s d => ⟨rfl, rfl, rfl, rfl, rfl, rfl⟩, ?_⟩
  have step : ∀ (l : List OverlayControl) (s : StoreTransform),
      (1 / 4 ≤ s.scale ∧ s.scale ≤ 3 ∧ 1 / 10 ≤ s.alpha ∧ s.alpha ≤ 1) →
      (1 / 4 ≤ (l.foldl (fun s a => (applyOverlayControl s a).1) s).scale ∧
        (l.foldl (fun s a => (applyOverlayControl s a).1) s).scale ≤ 3 ∧
        1 / 10 ≤ (l.foldl (fun s a => (applyOverlayControl s a).1) s).alpha ∧
        (l.foldl (fun s a => (applyOverlayControl s a).1) s).alpha ≤ 1) := by
    intro l
    induction l with
    | nil => intro s hs; exact hs
    | cons a l ih =>
        intro s hs
        obtain ⟨h1, h2, h3, h4⟩ := hs
        refine ih _ ?_
        cases a with
        | drag dx dy => exact ⟨h1, h2, h3, h4⟩
        | pinch sc ac dx dy =>
            have := clampQ_mem (1 / 4) 3 (s.scale * sc) (by norm_num)
            exact ⟨this.1, this.2, h3, h4⟩
        | rotateButton d => exact ⟨h1, h2, h3, h4⟩
        | rotateZero => exact ⟨h1, h2, h3, h4⟩
        | rotationSlider v => exact ⟨h1, h2, h3, h4⟩
        | scaleSlider v =>
            have := clampQ_mem (1 / 4) 3 v (by norm_num)
            exact ⟨this.1, this.2, h3, h4⟩
        | alphaSlider v =>
            have := clampQ_mem (1 / 10) 1 v (by norm_num)
            exact ⟨h1, h2, this.1, this.2⟩
        | reset =>
            refine ⟨?_, ?_, h3, h4⟩ <;> norm_num [applyOverlayControl]
  intro l
  exact step l initialStoreTransform
    ⟨by norm_num [initialStoreTransform], by norm_num [initialStoreTransform],
      by norm_num [initialStoreTransform], by norm_num [initialStoreTransform]⟩

/-! ### Score classification colors -/

/-- `getScoreColor` of the overlay screen: green `#22c55e` when the score is
at least 50, red `#ef4444` otherwise. -/
def getScoreColor (score : ℚ) : String :=
  if 50 ≤ score then "#22c55e" else "#ef4444"

/-- `getScoreColor` of the steampunk results screen's `renderScoreCard`:
`C.success` (`#10b981`) when the score is at least 50, `C.danger`
(`#dc2626`) otherwise. -/
def resultsScoreColor (score : ℚ) : String :=
  if 50 ≤ score then "#10b981" else "#dc2626"

/-- `getScoreColor` of the two older results-screen sources in the
repository: a three-tier split at 85 (green) and 70 (amber), red below. -/
def legacyResultsScoreColor (score : ℚ) : String :=
  if 85 ≤ score then "#22c55e" else if 70 ≤ score then "#f59e0b" else "#ef4444"

/-- The verdict labels of the help screen's threshold table: at least 50 is
Match Likely (green), below 50 is Match Unlikely (red). -/
def helpVerdictLabel (score : ℚ) : String :=
  if 50 ≤ score then "Match Likely" else "Match Unlikely"

/-- Counterexample to C6: the repository also contains results-screen
sources whose sub-score coloring uses a three-tier 85/70 split; there a
score of 60 — which is at least 50 — is colored red `#ef4444`, not the
green/success color the claim requires. -/
theorem legacy_results_color_breaks_fifty_cex :
    50 ≤ (60 : ℚ) ∧
    legacyResultsScoreColor 60 = "#ef4444" ∧
    legacyResultsScoreColor 60 ≠ getScoreColor 60 ∧
    getScoreColor 60 = "#22c55e" := by
  have h1 : legacyResultsScoreColor 60 = "#ef4444" := by
    norm_num [legacyResultsScoreColor]
  have h2 : getScoreColor 60 = "#22c55e" := by
    norm_num [getScoreColor]
  refine ⟨by norm_num, h1, ?_, h2⟩
  rw [h1, h2]
  decide

/-- C6 (amended): the overlay screen's score coloring, the steampunk results
screen's sub-score coloring, and the help screen's documented verdict table
all classify by the single fixed 50-percent threshold (at least 50 is
green/success, below 50 is red/danger); the two older results-screen sources
kept in the repository instead color sub-scores with a three-tier 85/70
split. -/
theorem fifty_threshold_consistent :
    ∀ score : ℚ,
      (getScoreColor score = "#22c55e" ↔ 50 ≤ score) ∧
      (resultsScoreColor score = "#10b981" ↔ 50 ≤ score) ∧
      (helpVerdictLabel score = "Match Likely" ↔ 50 ≤ score) := by
  intro score
  by_cases h : 50 ≤ score <;>
    simp [getScoreColor, resultsScoreColor, helpVerdictLabel, h]

/-! ### Comparison request (`compareHandwriting` in `services/api.ts`) -/

/-- The body posted to the `/compare` endpoint. -/
structure CompareRequest where
  questioned_image : String
  known_image : String
  use_ai_analysis : Bool
deriving DecidableEq

/-- `compareHandwriting(questionedImage, knownImage, useAiAnalysis = true)`:
posts exactly these three fields, with the AI flag defaulting to `true`. -/
def compareHandwriting (questionedImage knownImage : String)
    (useAiAnalysis : Bool := true) : CompareRequest :=
  { questioned_image := questionedImage
    known_image := knownImage
    use_ai_analysis := useAiAnalysis }

/-- C7: for every invocation the request body is exactly
`{questioned_image: q, known_image: k, use_ai_analysis: useAi}`; the AI
analysis is skippable by passing `false`, and the flag defaults to `true`
when omitted. -/
theorem compareHandwriting_request_exact :
    (∀ (q k : String) (useAi : Bool),
      compareHandwriting q k useAi =
        { questioned_image := q, known_image := k, use_ai_analysis := useAi }) ∧
    (∀ q k : String,
      compareHandwriting q k =
        { questioned_image := q, known_image := k, use_ai_analysis := true }) ∧
    (∀ q k : String, (compareHandwriting q k false).use_ai_analysis = false) :=
  ⟨fun _ _ _ => rfl, fun _ _ => rfl, fun _ _ => rfl⟩

/-! ### Overlay store shape (`overlayStore.ts`) versus the overlay screen -/

/-- The keys defined by `useOverlayStore`: its state fields and actions, in
source order. -/
def overlayStoreKeys : List String :=
  ["sourceImage", "baseImage", "croppedImage", "croppedWidth", "croppedHeight",
    "overlayX", "overlayY", "overlayScale", "overlayAlpha", "cropRect",
    "isCropMode", "isOverlayMode", "showGrid", "showCrosshair", "showHeatmap",
    "localSSIM", "edgeOverlap", "differenceHeatmap", "edgeVisualization",
    "isCropping", "isComparing", "setSourceImage", "setBaseImage",
    "setCroppedImage", "setCropRect", "setOverlayPosition", "setOverlayScale",
    "setOverlayAlpha", "toggleCropMode", "toggleOverlayMode", "toggleGrid",
    "toggleCrosshair", "toggleHeatmap", "setLocalComparison", "setIsCropping",
    "setIsComparing", "resetOverlay", "resetAll"]

/-- The keys the overlay adjustment screen destructures from
`useOverlayStore()`, in source order. -/
def overlayScreenStoreBindings : List String :=
  ["baseImage", "croppedImage", "croppedWidth", "croppedHeight", "overlayX",
    "overlayY", "overlayScale", "overlayRotation", "overlayAlpha", "showGrid",
    "showCrosshair", "showHeatmap", "localSSIM", "edgeOverlap",
    "differenceHeatmap", "edgeVisualization", "isComparing",
    "setOverlayPosition", "setOverlayScale", "setOverlayRotation",
    "setOverlayAlpha", "toggleGrid", "toggleCrosshair", "toggleHeatmap",
    "setLocalComparison", "setIsComparing", "resetOverlay", "resetAll"]

/-- C9 evaluation: the overlay screen destructures `overlayRotation` and
`setOverlayRotation`, but neither is among the keys the overlay store
defines — both evaluate to `undefined` at the screen's uses. -/
theorem overlayRotation_missing_from_store :
    "overlayRotation" ∈ overlayScreenStoreBindings ∧
    "setOverlayRotation" ∈ overlayScreenStoreBindings ∧
    "overlayRotation" ∉ overlayStoreKeys ∧
    "setOverlayRotation" ∉ overlayStoreKeys ∧
    ∀ k ∈ overlayScreenStoreBindings,
      k ∈ overlayStoreKeys ∨ k = "overlayRotation" ∨ k = "setOverlayRotation" := by
  decide

/-! ### `runLocalComparison` error handling -/

/-- The response type of the `/local-comparison` endpoint
(`LocalComparisonResponse` in `services/api.ts`). -/
structure LocalComparisonResponse where
  local_ssim : ℚ
  difference_heatmap : String
  edge_overlap : ℚ
  edge_visualization : String
  region_width : ℤ
  region_height : ℤ
deriving DecidableEq

/-- `setLocalComparison` of the overlay store: overwrites exactly the four
local-comparison result fields. -/
def setLocalComparison (s : OverlayScreenState) (ssim eo : ℚ)
    (hm ev : Option String) : OverlayScreenState :=
  { s with
    localSSIM := ssim
    edgeOverlap := eo
    differenceHeatmap := hm
    edgeVisualization := ev }

/-- `setIsComparing` of the overlay store. -/
def setIsComparing (s : OverlayScreenState) (b : Bool) : OverlayScreenState :=
  { s with isComparing := b }

/-- `runLocalComparison` of the overlay screen as a state transformer over
the store, parametrized by the request outcome. It returns the final store
state together with the list of arguments passed to `setIsComparing`, in
call order: early return when an image is missing; otherwise
`setIsComparing(true)`, then on success `setLocalComparison` with the
response fields, on failure only a console log, and in the `finally` block
`setIsComparing(false)`. -/
def runLocalComparison (s : OverlayScreenState)
    (outcome : Except Unit LocalComparisonResponse) :
    OverlayScreenState × List Bool :=
  match s.baseImage, s.croppedImage with
  | some _, some _ =>
      match outcome with
      | .ok r =>
          (setIsComparing
            (setLocalComparison (setIsComparing s true) r.local_ssim r.edge_overlap
              (some r.difference_heatmap) (some r.edge_visualization)) false,
            [true, false])
      | .error _ => (setIsComparing (setIsComparing s true) false, [true, false])
  | _, _ => (s, [])

/-- C10: when both images are present, every run of `runLocalComparison`
sets `isComparing` to `true` at the start and back to `false` on completion
(trace `[true, false]`, final value `false`), and on a rejected request the
four stored local-comparison values are left unchanged. -/
theorem runLocalComparison_atomic :
    ∀ (s : OverlayScreenState) (outcome : Except Unit LocalComparisonResponse)
      (b c : String),
      s.baseImage = some b → s.croppedImage = some c →
      (runLocalComparison s outcome).2 = [true, false] ∧
      ((runLocalComparison s outcome).1).isComparing = false ∧
      (∀ e : Unit, outcome = Except.error e →
        ((runLocalComparison s outcome).1).localSSIM = s.localSSIM ∧
        ((runLocalComparison s outcome).1).edgeOverlap = s.edgeOverlap ∧
        ((runLocalComparison s outcome).1).differenceHeatmap = s.differenceHeatmap ∧
        ((runLocalComparison s outcome).1).edgeVisualization = s.edgeVisualization) := by
  intro s outcome b c hb hc
  cases outcome with
  | ok r =>
      refine ⟨?_, ?_, ?_⟩
      · simp [runLocalComparison, hb, hc]
      · simp [runLocalComparison, hb, hc, setIsComparing, setLocalComparison]
      · intro e he
        exact absurd he (by simp)
  | error e =>
      refine ⟨?_, ?_, ?_⟩
      · simp [runLocalComparison, hb, hc]
      · simp [runLocalComparison, hb, hc, setIsComparing]
      · intro e2 he2
        refine ⟨?_, ?_, ?_, ?_⟩ <;>
          simp [runLocalComparison, hb, hc, setIsComparing]

/-- Witness for C10: the atomicity theorem applied to a concrete state and a
rejected request. -/
theorem runLocalComparison_atomic_witness :
    (runLocalComparison sampleOverlayState (Except.error ())).2 = [true, false] ∧
    ((runLocalComparison sampleOverlayState (Except.error ())).1).isComparing = false ∧
    (∀ e : Unit, Except.error e = (Except.error () : Except Unit LocalComparisonResponse) →
      ((runLocalComparison sampleOverlayState (Except.error ())).1).localSSIM =
        sampleOverlayState.localSSIM ∧
      ((runLocalComparison sampleOverlayState (Except.error ())).1).edgeOverlap =
        sampleOverlayState.edgeOverlap ∧
      ((runLocalComparison sampleOverlayState (Except.error ())).1).differenceHeatmap =
        sampleOverlayState.differenceHeatmap ∧
      ((runLocalComparison sampleOverlayState (Except.error ())).1).edgeVisualization =
        sampleOverlayState.edgeVisualization) := by
  have h := runLocalComparison_atomic sampleOverlayState (Except.error ()) "base" "crop" rfl rfl
  exact ⟨h.1, h.2.1, fun e he => h.2.2 e he.symm⟩

/-! ### Composite comparison engine

The backend engine behind the `/compare` endpoint is not among the
repository sources here; only its frontend caller `compareHandwriting` is.
The definitions below model it from the spec. -/

/-- A named sub-score (spec section 3). -/
structure SubScore where
  name : String
  score : ℚ
  description : String
deriving DecidableEq

/-- A composite comparison result (spec section 3). -/
structure CompositeResult where
  composite_score : ℚ
  verdict : String
  sub_scores : List SubScore
  difference_heatmap : List ℕ
  ai_analysis : Option String
deriving DecidableEq

/-- The five deterministic metric functions of the engine, abstracted over
their pixel-level computation: each maps the two input byte buffers to a
score, and the visualization generator maps them to a heatmap image. -/
structure Engine where
  macroGeometry : List ℕ → List ℕ → ℚ
  strokeDistribution : List ℕ → List ℕ → ℚ
  curvatureMatch : List ℕ → List ℕ → ℚ
  structuralSimilarity : List ℕ → List ℕ → ℚ
  correlation : List ℕ → List ℕ → ℚ
  heatmap : List ℕ → List ℕ → List ℕ

/-- Modelled from the spec: the fixed weight table of the composite scorer
(spec section 4.5), keyed by sub-score name, summing to 1, excluding the AI
sub-score. -/
def compositeWeights : String → ℚ := fun n =>
  if n = "Macro Geometry" then 1 / 5
  else if n = "Stroke Distribution" then 1 / 5
  else if n = "Curvature Match" then 1 / 5
  else if n = "Structural Similarity" then 1 / 5
  else if n = "Correlation" then 1 / 5
  else 0

/-- Modelled from the spec: the ordered non-AI sub-score sequence produced
by one comparison (spec section 3). -/
def nonAiSubScores (e : Engine) (questioned known : List ℕ) : List SubScore :=
  [⟨"Macro Geometry", e.macroGeometry questioned known, "Slant angle, letter ratios, line spacing"⟩,
    ⟨"Stroke Distribution", e.strokeDistribution questioned known, "Stroke width histogram comparison"⟩,
    ⟨"Curvature Match", e.curvatureMatch questioned known, "Stroke curvature statistics"⟩,
    ⟨"Structural Similarity", e.structuralSimilarity questioned known, "SSIM index between images"⟩,
    ⟨"Correlation", e.correlation questioned known, "Normalized cross-correlation score"⟩]

/-- The weighted fusion of a sub-score sequence under the fixed weight
table. -/
def weightedScore (l : List SubScore) : ℚ :=
  (l.map fun s => compositeWeights s.name * s.score).sum

/-- Verdict classification at the fixed 50-percent threshold. -/
def verdictOf (score : ℚ) : String :=
  if 50 ≤ score then "Match Likely" else "Match Unlikely"

/-- Modelled from the spec: `compare(questioned, known, useAi)` of the
backend engine (spec sections 4.5, 6), which is not among the sources here.
The external AI collaborator is the oracle argument `ai` (its text may vary
call to call); it is invoked only when `useAi` is true, is advisory-only,
and is excluded from the composite score, which is the fixed-weight average
of the five deterministic non-AI sub-scores. -/
def compare (e : Engine) (ai : List ℕ → List ℕ → String)
    (questioned known : List ℕ) (useAi : Bool) : CompositeResult :=
  let subs := nonAiSubScores e questioned known
  let score := weightedScore subs
  { composite_score := score
    verdict := verdictOf score
    sub_scores := subs
    difference_heatmap := e.heatmap questioned known
    ai_analysis := if useAi then some (ai questioned known) else none }

/-- C8: with AI analysis disabled, `compare` is deterministic — its result
is independent of the AI oracle (two invocations on byte-identical inputs
agree bit for bit, whatever the external AI would have answered), it carries
no AI field, and its composite score is the fixed-weight function of the
non-AI sub-scores alone. -/
theorem compare_deterministic_without_ai :
    ∀ (e : Engine) (ai1 ai2 : List ℕ → List ℕ → String) (a b : List ℕ),
      compare e ai1 a b false = compare e ai2 a b false ∧
      (compare e ai1 a b false).composite_score =
        weightedScore (nonAiSubScores e a b) ∧
      (compare e ai1 a b false).ai_analysis = none := by
  intro e ai1 ai2 a b
  refine ⟨?_, rfl, rfl⟩
  simp [compare]

end Writesleuth
